import Mathlib

/-!
Formal model of the `render_timer` class (src/render_timer.h).

The class is a frame pacer: a background thread (`timer_loop`) periodically
sets a single readiness flag (`m_render_ready`, an `std::atomic_flag`) and
notifies a condition variable; consumers block in `can_render` until the flag
is observed set.  The mutable state of one `render_timer` object that the
pacing logic reads or writes is `m_fps`, `m_render_interval`, `m_running`
and `m_render_ready`; the clock timestamps, mutex, condition variable and
the thread handle carry no pacing-relevant data and are modelled by the
structure of the transition system below rather than by fields.

Clock readings are abstracted: one iteration of `timer_loop` is parameterised
by the measured `frame_duration` in whole milliseconds (the value of
`duration_cast<milliseconds>(frame_end - frame_start)`), which the hardware
determines at run time.

Mutex-protected critical sections of the C++ code execute atomically with
respect to each other; each Lean function below models one such atomic step,
and the interleaving of the loop thread, consumer threads, and start/stop
callers is modelled by the small labelled transition system `sysStep` further
down (two consumer threads, enough for every claim that needs more than one).
-/

namespace RenderTimerModel

/-- Pacing-relevant fields of a `render_timer` object.  C++ `int` arithmetic
on `m_fps` and `m_render_interval` never approaches the 32-bit bounds in the
operations modelled here (values derive from 1000 and user fps), so the
fields are modelled as unbounded `Int` with C++ truncated division
(`Int.tdiv`). -/
structure RenderTimer where
  m_fps : Int
  m_render_interval : Int
  m_running : Bool
  m_render_ready : Bool
deriving DecidableEq

/-- Constructor `render_timer()` : `m_fps(60), m_render_interval(1000 / m_fps),
m_running(false)`; `m_render_ready` starts clear (`ATOMIC_FLAG_INIT`). -/
def RenderTimer.init : RenderTimer :=
  { m_fps := 60
    m_render_interval := Int.tdiv 1000 60
    m_running := false
    m_render_ready := false }

/-- `set_fps(int fps)` : `if (fps > 0 && fps != m_fps) { m_fps = fps;
m_render_interval = 1000 / m_fps; }`. -/
def set_fps (t : RenderTimer) (fps : Int) : RenderTimer :=
  if fps > 0 ∧ fps ≠ t.m_fps then
    { t with m_fps := fps, m_render_interval := Int.tdiv 1000 fps }
  else
    t

/-- `get_render_interval()` : returns `m_render_interval`. -/
def get_render_interval (t : RenderTimer) : Int :=
  t.m_render_interval

/-- `start()` : `if (!m_running.exchange(true)) { ...; m_thread = std::thread(...); }`.
The exchange stores `true` unconditionally and yields the old value; the
second component records whether a new loop thread was launched. -/
def start (t : RenderTimer) : RenderTimer × Bool :=
  ({ t with m_running := true }, !t.m_running)

/-- `stop()` : `if (m_running.exchange(false)) { m_cv.notify_all(); m_thread.join(); }`.
The second component records whether the notify/join branch ran (the caller
blocked until the loop thread terminated). -/
def stop (t : RenderTimer) : RenderTimer × Bool :=
  ({ t with m_running := false }, t.m_running)

/-- `m_render_ready.test_and_set()` : sets the flag, returns its old value. -/
def test_and_set (t : RenderTimer) : RenderTimer × Bool :=
  ({ t with m_render_ready := true }, t.m_render_ready)

/-- `m_render_ready.clear()`. -/
def ready_clear (t : RenderTimer) : RenderTimer :=
  { t with m_render_ready := false }

/-- One evaluation, under the mutex, of the body of `can_render` up to its
first suspension point: the wait predicate `m_render_ready.test_and_set()`
runs; if it yields `true` the wait is over, the flag is cleared and the call
returns `true` (second component `some true`); if it yields `false` the flag
has nevertheless been set as a side effect and the caller blocks on the
condition variable (second component `none`).  A woken waiter re-runs exactly
this step. -/
def can_render_enter (t : RenderTimer) : RenderTimer × Option Bool :=
  let p := test_and_set t
  if p.2 then (ready_clear p.1, some true) else (p.1, none)

/-- One iteration of the body of `timer_loop` (executed only while
`m_running` is true), parameterised by the measured `frame_duration` in
milliseconds: set the readiness flag under the mutex, `notify_all`, then
apply the adaptive correction `if (extra_duration > 0ms)
m_render_interval -= extra_duration.count()` where
`extra_duration = frame_duration - milliseconds(m_render_interval)`.
The trailing conditional sleep changes no modelled state. -/
def timer_loop_iter (t : RenderTimer) (frame_duration : Int) : RenderTimer :=
  let t1 := { t with m_render_ready := true }
  let extra_duration := frame_duration - t1.m_render_interval
  if extra_duration > 0 then
    { t1 with m_render_interval := t1.m_render_interval - extra_duration }
  else
    t1

/-- Consistency of the stored interval with the stored frequency
(`m_render_interval = 1000 / m_fps` with C++ truncated division). -/
def interval_consistent (t : RenderTimer) : Prop :=
  t.m_render_interval = Int.tdiv 1000 t.m_fps

instance (t : RenderTimer) : Decidable (interval_consistent t) :=
  inferInstanceAs (Decidable (t.m_render_interval = Int.tdiv 1000 t.m_fps))

/-- `n` consecutive calls to `start()`, counting how many launched a loop
thread. -/
def start_count : RenderTimer → Nat → RenderTimer × Nat
  | t, 0 => (t, 0)
  | t, Nat.succ n =>
    let p := start t
    let q := start_count p.1 n
    (q.1, (if p.2 then 1 else 0) + q.2)

/-- Observable status of one consumer thread with respect to `can_render`. -/
inductive CStatus
  | idle
  | blocked
  | done (ret : Bool)
deriving DecidableEq

/-- One consumer thread: its status, and whether a `notify_all` has reached
it while blocked and its re-evaluation of the wait predicate is still
pending. -/
structure Consumer where
  status : CStatus
  woken : Bool
deriving DecidableEq

/-- Global state of the interleaving model: the timer object plus two
consumer threads. -/
structure SysState where
  timer : RenderTimer
  c0 : Consumer
  c1 : Consumer
deriving DecidableEq

/-- Atomic steps of the interleaved execution.  `enter` is a consumer calling
`can_render` (first predicate evaluation); `repoll` is a blocked consumer
re-evaluating the predicate after a wakeup; `tickSignal` is one iteration of
the loop body (enabled only while `m_running`, the `while` guard);
`callStop` and `callStart` are the public calls. -/
inductive Action
  | enter0
  | enter1
  | repoll0
  | repoll1
  | tickSignal (frame_duration : Int)
  | callStop
  | callStart
deriving DecidableEq

/-- `notify_all` effect on one consumer: a blocked consumer acquires a
pending wakeup. -/
def wake_if_blocked (c : Consumer) : Consumer :=
  if c.status = CStatus.blocked then { c with woken := true } else c

/-- Consumer status after one evaluation of the `can_render` wait predicate:
the call finishes with its return value, or the consumer (re-)blocks with no
pending wakeup. -/
def after_poll (r : Option Bool) : Consumer :=
  match r with
  | some b => { status := CStatus.done b, woken := false }
  | none => { status := CStatus.blocked, woken := false }

/-- One atomic step of the interleaved execution; `none` when the action is
not enabled in the given state. -/
def sysStep (s : SysState) : Action → Option SysState
  | Action.enter0 =>
    if s.c0.status = CStatus.idle then
      let p := can_render_enter s.timer
      some { s with timer := p.1, c0 := after_poll p.2 }
    else none
  | Action.enter1 =>
    if s.c1.status = CStatus.idle then
      let p := can_render_enter s.timer
      some { s with timer := p.1, c1 := after_poll p.2 }
    else none
  | Action.repoll0 =>
    if s.c0.status = CStatus.blocked ∧ s.c0.woken = true then
      let p := can_render_enter s.timer
      some { s with timer := p.1, c0 := after_poll p.2 }
    else none
  | Action.repoll1 =>
    if s.c1.status = CStatus.blocked ∧ s.c1.woken = true then
      let p := can_render_enter s.timer
      some { s with timer := p.1, c1 := after_poll p.2 }
    else none
  | Action.tickSignal d =>
    if s.timer.m_running = true then
      some { timer := timer_loop_iter s.timer d
             c0 := wake_if_blocked s.c0
             c1 := wake_if_blocked s.c1 }
    else none
  | Action.callStop =>
    let p := stop s.timer
    if p.2 then
      some { timer := p.1, c0 := wake_if_blocked s.c0, c1 := wake_if_blocked s.c1 }
    else
      some { s with timer := p.1 }
  | Action.callStart =>
    some { s with timer := (start s.timer).1 }

/-- Run a list of atomic steps; `none` if any step is not enabled. -/
def sysRun : SysState → List Action → Option SysState
  | s, [] => some s
  | s, a :: rest =>
    match sysStep s a with
    | some s1 => sysRun s1 rest
    | none => none

/-- Freshly constructed timer with two consumers that have not called
`can_render` yet. -/
def sysInit : SysState :=
  { timer := RenderTimer.init
    c0 := { status := CStatus.idle, woken := false }
    c1 := { status := CStatus.idle, woken := false } }

/-- Interleaving exhibiting a stuck waiter: consumer 0 blocks (its failed
poll sets the readiness flag), consumer 1 calls `can_render` and consumes
that flag immediately, then `stop()` notifies; consumer 0 re-polls, finds the
flag clear, re-sets it and blocks again with no wakeup left. -/
def c6_trace : List Action :=
  [Action.callStart, Action.enter0, Action.enter1, Action.callStop, Action.repoll0]

/-- State reached by `c6_trace` from `sysInit`. -/
def c6_final : SysState :=
  { timer := { m_fps := 60, m_render_interval := 16, m_running := false, m_render_ready := true }
    c0 := { status := CStatus.blocked, woken := false }
    c1 := { status := CStatus.done true, woken := false } }

/-- Consumer 0 is blocked with no pending wakeup while the loop is not
running: nothing but a fresh `start()` can ever wake it again. -/
def stuck_c0 (s : SysState) : Prop :=
  s.c0 = { status := CStatus.blocked, woken := false } ∧ s.timer.m_running = false

/-- State after `start(); ` consumer 0 calls `can_render` before any tick:
consumer 0 is blocked and its failed poll has set the readiness flag. -/
def c10_mid : SysState :=
  { timer := { m_fps := 60, m_render_interval := 16, m_running := true, m_render_ready := true }
    c0 := { status := CStatus.blocked, woken := false }
    c1 := { status := CStatus.idle, woken := false } }

/-- State after consumer 1 additionally calls `can_render`: it consumed the
flag set by consumer 0's failed poll and returned `true`, with no loop tick
ever having occurred. -/
def c10_end : SysState :=
  { timer := { m_fps := 60, m_render_interval := 16, m_running := true, m_render_ready := false }
    c0 := { status := CStatus.blocked, woken := false }
    c1 := { status := CStatus.done true, woken := false } }

theorem timer_loop_iter_ready (t : RenderTimer) (d : Int) :
    (timer_loop_iter t d).m_render_ready = true := by
  unfold timer_loop_iter
  dsimp only
  split <;> rfl

theorem timer_loop_iter_fps (t : RenderTimer) (d : Int) :
    (timer_loop_iter t d).m_fps = t.m_fps := by
  unfold timer_loop_iter
  dsimp only
  split <;> rfl

theorem timer_loop_iter_running (t : RenderTimer) (d : Int) :
    (timer_loop_iter t d).m_running = t.m_running := by
  unfold timer_loop_iter
  dsimp only
  split <;> rfl

theorem can_render_enter_of_ready (t : RenderTimer) (h : t.m_render_ready = true) :
    can_render_enter t = ({ t with m_render_ready := false }, some true) := by
  unfold can_render_enter test_and_set ready_clear
  simp [h]

theorem can_render_enter_of_clear (t : RenderTimer) (h : t.m_render_ready = false) :
    can_render_enter t = ({ t with m_render_ready := true }, none) := by
  unfold can_render_enter test_and_set
  simp [h]

theorem can_render_enter_running (t : RenderTimer) :
    (can_render_enter t).1.m_running = t.m_running := by
  unfold can_render_enter test_and_set ready_clear
  dsimp only
  split <;> rfl

theorem can_render_enter_fps (t : RenderTimer) :
    (can_render_enter t).1.m_fps = t.m_fps := by
  unfold can_render_enter test_and_set ready_clear
  dsimp only
  split <;> rfl

theorem can_render_enter_interval (t : RenderTimer) :
    (can_render_enter t).1.m_render_interval = t.m_render_interval := by
  unfold can_render_enter test_and_set ready_clear
  dsimp only
  split <;> rfl

theorem stop_then_start (t : RenderTimer) :
    (start (stop t).1).1 = { t with m_running := true } := by
  rfl

/-- C1 fails as stated: from the started default timer, one loop iteration
whose measured work duration is 20 ms adaptively shrinks the interval to
12 ms while leaving `m_fps = 60`; `set_fps(60)` is then a no-op (the argument
equals the stored frequency), and `get_render_interval()` returns 12, not
`1000 / 60 = 16`. -/
theorem c1_counterexample :
    (timer_loop_iter (start RenderTimer.init).1 20).m_fps = 60 ∧
    get_render_interval (set_fps (timer_loop_iter (start RenderTimer.init).1 20) 60) = 12 ∧
    Int.tdiv 1000 60 = 16 ∧
    ¬ get_render_interval (set_fps (timer_loop_iter (start RenderTimer.init).1 20) 60)
        = Int.tdiv 1000 60 := by
  decide

/-- C1 amended: for every positive frequency `F` that differs from the
currently stored frequency, `set_fps F` followed by `get_render_interval()`
returns `1000 / F` with integer truncation, immediately, in any state
(running or not); moreover the spec scenario holds: the default-constructed
timer reports 16, after `set_fps 30` it reports 33, and a further
`set_fps 0` is rejected, leaving 33. -/
theorem c1_accepted_set_fps_interval (t : RenderTimer) (F : Int)
    (hpos : 0 < F) (hne : F ≠ t.m_fps) :
    get_render_interval (set_fps t F) = Int.tdiv 1000 F ∧
    get_render_interval RenderTimer.init = 16 ∧
    get_render_interval (set_fps RenderTimer.init 30) = 33 ∧
    get_render_interval (set_fps (set_fps RenderTimer.init 30) 0) = 33 := by
  refine ⟨?_, by decide, by decide, by decide⟩
  unfold get_render_interval set_fps
  rw [if_pos ⟨hpos, hne⟩]

theorem c1_witness :
    ((0 : Int) < 30 ∧ (30 : Int) ≠ RenderTimer.init.m_fps) ∧
    get_render_interval (set_fps RenderTimer.init 30) = Int.tdiv 1000 30 :=
  ⟨⟨by decide, by decide⟩,
   (c1_accepted_set_fps_interval RenderTimer.init 30 (by decide) (by decide)).1⟩

/-- C2: `set_fps` with a non-positive argument, or with an argument equal to
the stored frequency, leaves the whole object unchanged; in particular the
stored frequency and the value returned by `get_render_interval()` are
unchanged. -/
theorem c2_set_fps_noop (t : RenderTimer) (fps : Int)
    (h : fps ≤ 0 ∨ fps = t.m_fps) :
    set_fps t fps = t ∧
    (set_fps t fps).m_fps = t.m_fps ∧
    get_render_interval (set_fps t fps) = get_render_interval t := by
  have hne : ¬ (fps > 0 ∧ fps ≠ t.m_fps) := by
    rintro ⟨h1, h2⟩
    cases h with
    | inl hle => exact absurd h1 (not_lt.mpr hle)
    | inr heq => exact h2 heq
  have heq : set_fps t fps = t := by
    unfold set_fps
    rw [if_neg hne]
  exact ⟨heq, by rw [heq], by rw [heq]⟩

theorem c2_witness :
    ((0 : Int) ≤ 0 ∨ (0 : Int) = RenderTimer.init.m_fps) ∧
    set_fps RenderTimer.init 0 = RenderTimer.init ∧
    set_fps RenderTimer.init 60 = RenderTimer.init :=
  ⟨Or.inl (by decide),
   (c2_set_fps_noop RenderTimer.init 0 (Or.inl (by decide))).1,
   (c2_set_fps_noop RenderTimer.init 60 (Or.inr (by decide))).1⟩

/-- C3: in a loop iteration with measured work duration `d`, if `d` exceeds
the nominal interval the interval becomes `old - (d - old)` exactly, with no
lower bound; if `d` does not exceed the interval the interval is unchanged.
Concretely, from the started default timer (interval 16) a single iteration
with `d = 32` drives the interval to exactly 0, and one with `d = 100`
drives it to the negative value `16 - 84 = -68`. -/
theorem c3_adaptive_correction (t : RenderTimer) (d : Int) :
    (d > t.m_render_interval →
      (timer_loop_iter t d).m_render_interval
        = t.m_render_interval - (d - t.m_render_interval)) ∧
    (d ≤ t.m_render_interval →
      (timer_loop_iter t d).m_render_interval = t.m_render_interval) ∧
    get_render_interval (timer_loop_iter (start RenderTimer.init).1 32) = 0 ∧
    get_render_interval (timer_loop_iter (start RenderTimer.init).1 100) < 0 := by
  refine ⟨?_, ?_, by decide, by decide⟩
  · intro h
    have hpos : d - t.m_render_interval > 0 := sub_pos.mpr h
    unfold timer_loop_iter
    dsimp only
    rw [if_pos hpos]
  · intro h
    have hneg : ¬ d - t.m_render_interval > 0 := by omega
    unfold timer_loop_iter
    dsimp only
    rw [if_neg hneg]

theorem c3_witness :
    ((20 : Int) > RenderTimer.init.m_render_interval ∧
      (timer_loop_iter RenderTimer.init 20).m_render_interval
        = RenderTimer.init.m_render_interval - (20 - RenderTimer.init.m_render_interval)) ∧
    ((10 : Int) ≤ RenderTimer.init.m_render_interval ∧
      (timer_loop_iter RenderTimer.init 10).m_render_interval
        = RenderTimer.init.m_render_interval) :=
  ⟨⟨by decide, (c3_adaptive_correction RenderTimer.init 20).1 (by decide)⟩,
   ⟨by decide, (c3_adaptive_correction RenderTimer.init 10).2.1 (by decide)⟩⟩

/-- C4 fails as stated: after the loop iteration of the C1 counterexample the
stored interval is 12 while `1000 / m_fps = 1000 / 60 = 16`, so the
interval/frequency consistency invariant does not survive the loop's
adaptive correction. -/
theorem c4_counterexample :
    (timer_loop_iter (start RenderTimer.init).1 20).m_render_interval = 12 ∧
    Int.tdiv 1000 (timer_loop_iter (start RenderTimer.init).1 20).m_fps = 16 ∧
    ¬ interval_consistent (timer_loop_iter (start RenderTimer.init).1 20) := by
  decide

/-- C4 amended: the consistency invariant `m_render_interval = 1000 / m_fps`
holds at construction and is preserved by `set_fps` (which recomputes the
interval whenever it changes the frequency), by `start`, by `stop`, and by
`can_render`; only the background loop's adaptive correction can break it. -/
theorem c4_invariant_without_loop :
    interval_consistent RenderTimer.init ∧
    (∀ t fps, interval_consistent t → interval_consistent (set_fps t fps)) ∧
    (∀ t, interval_consistent t → interval_consistent (start t).1) ∧
    (∀ t, interval_consistent t → interval_consistent (stop t).1) ∧
    (∀ t, interval_consistent t → interval_consistent (can_render_enter t).1) := by
  refine ⟨by decide, ?_, ?_, ?_, ?_⟩
  · intro t fps h
    unfold set_fps
    split
    · rfl
    · exact h
  · intro t h
    exact h
  · intro t h
    exact h
  · intro t h
    unfold interval_consistent at h ⊢
    rw [can_render_enter_interval, can_render_enter_fps]
    exact h

theorem c4_witness :
    interval_consistent RenderTimer.init ∧
    interval_consistent (set_fps RenderTimer.init 30) ∧
    interval_consistent (start RenderTimer.init).1 :=
  ⟨c4_invariant_without_loop.1,
   c4_invariant_without_loop.2.1 RenderTimer.init 30 (by decide),
   c4_invariant_without_loop.2.2.1 RenderTimer.init (by decide)⟩

/-- C5: the readiness signal is the single boolean flag `m_render_ready`, so
two loop ticks with no consumption in between coalesce into one pending tick
(after either one or two ticks the flag is simply set); a `can_render` call
in that state returns `true` immediately and consumes the pending tick (flag
cleared); a further call made before the next tick blocks; and after the
next tick the blocked call's re-poll returns `true` once. -/
theorem c5_single_slot (t : RenderTimer) (d1 d2 d3 : Int) :
    (timer_loop_iter t d1).m_render_ready = true ∧
    (timer_loop_iter (timer_loop_iter t d1) d2).m_render_ready = true ∧
    (can_render_enter (timer_loop_iter (timer_loop_iter t d1) d2)).2 = some true ∧
    (can_render_enter (timer_loop_iter (timer_loop_iter t d1) d2)).1.m_render_ready = false ∧
    (can_render_enter (can_render_enter (timer_loop_iter (timer_loop_iter t d1) d2)).1).2
      = none ∧
    (can_render_enter (timer_loop_iter
        (can_render_enter
          (can_render_enter (timer_loop_iter (timer_loop_iter t d1) d2)).1).1 d3)).2
      = some true := by
  have hB := timer_loop_iter_ready (timer_loop_iter t d1) d2
  have h3 := can_render_enter_of_ready _ hB
  refine ⟨timer_loop_iter_ready t d1, hB, ?_, ?_, ?_, ?_⟩
  · rw [h3]
  · rw [h3]
  · rw [h3]
    dsimp only
    rw [can_render_enter_of_clear _ rfl]
  · rw [h3]
    dsimp only
    rw [can_render_enter_of_ready _ (timer_loop_iter_ready _ d3)]

theorem sysStep_preserves_stopped (s : SysState) (a : Action)
    (hrun : s.timer.m_running = false) (ha : a ≠ Action.callStart)
    (s1 : SysState) (h : sysStep s a = some s1) :
    s1.timer.m_running = false := by
  cases a with
  | enter0 =>
    simp only [sysStep] at h
    split at h
    · cases h
      show (can_render_enter s.timer).1.m_running = false
      rw [can_render_enter_running]
      exact hrun
    · exact Option.noConfusion h
  | enter1 =>
    simp only [sysStep] at h
    split at h
    · cases h
      show (can_render_enter s.timer).1.m_running = false
      rw [can_render_enter_running]
      exact hrun
    · exact Option.noConfusion h
  | repoll0 =>
    simp only [sysStep] at h
    split at h
    · cases h
      show (can_render_enter s.timer).1.m_running = false
      rw [can_render_enter_running]
      exact hrun
    · exact Option.noConfusion h
  | repoll1 =>
    simp only [sysStep] at h
    split at h
    · cases h
      show (can_render_enter s.timer).1.m_running = false
      rw [can_render_enter_running]
      exact hrun
    · exact Option.noConfusion h
  | tickSignal d =>
    simp only [sysStep] at h
    rw [hrun] at h
    simp at h
  | callStop =>
    simp only [sysStep] at h
    split at h
    · cases h
      rfl
    · cases h
      rfl
  | callStart => exact absurd rfl ha

theorem sysRun_preserves_stopped (acts : List Action) (s : SysState)
    (hrun : s.timer.m_running = false)
    (ha : ∀ a ∈ acts, a ≠ Action.callStart)
    (s1 : SysState) (h : sysRun s acts = some s1) :
    s1.timer.m_running = false := by
  induction acts generalizing s with
  | nil =>
    simp only [sysRun] at h
    cases h
    exact hrun
  | cons a rest ih =>
    simp only [sysRun] at h
    cases hstep : sysStep s a with
    | none =>
      rw [hstep] at h
      exact Option.noConfusion h
    | some s2 =>
      rw [hstep] at h
      exact ih s2
        (sysStep_preserves_stopped s a hrun (ha a (List.mem_cons_self a rest)) s2 hstep)
        (fun b hb => ha b (List.mem_cons_of_mem a hb)) h

theorem sysStep_preserves_stuck (s : SysState) (a : Action) (hs : stuck_c0 s)
    (ha : a ≠ Action.callStart) (s1 : SysState) (h : sysStep s a = some s1) :
    stuck_c0 s1 := by
  obtain ⟨hc0, hrun⟩ := hs
  refine ⟨?_, sysStep_preserves_stopped s a hrun ha s1 h⟩
  cases a with
  | enter0 =>
    simp only [sysStep] at h
    rw [hc0] at h
    simp at h
  | enter1 =>
    simp only [sysStep] at h
    split at h
    · cases h
      exact hc0
    · exact Option.noConfusion h
  | repoll0 =>
    simp only [sysStep] at h
    rw [hc0] at h
    simp at h
  | repoll1 =>
    simp only [sysStep] at h
    split at h
    · cases h
      exact hc0
    · exact Option.noConfusion h
  | tickSignal d =>
    simp only [sysStep] at h
    rw [hrun] at h
    simp at h
  | callStop =>
    simp only [sysStep] at h
    split at h
    · rename_i hcond
      simp [stop, hrun] at hcond
    · cases h
      exact hc0
  | callStart => exact absurd rfl ha

theorem sysRun_preserves_stuck (acts : List Action) (s : SysState)
    (hs : stuck_c0 s)
    (ha : ∀ a ∈ acts, a ≠ Action.callStart)
    (s1 : SysState) (h : sysRun s acts = some s1) :
    stuck_c0 s1 := by
  induction acts generalizing s with
  | nil =>
    simp only [sysRun] at h
    cases h
    exact hs
  | cons a rest ih =>
    simp only [sysRun] at h
    cases hstep : sysStep s a with
    | none =>
      rw [hstep] at h
      exact Option.noConfusion h
    | some s2 =>
      rw [hstep] at h
      exact ih s2
        (sysStep_preserves_stuck s a hs (ha a (List.mem_cons_self a rest)) s2 hstep)
        (fun b hb => ha b (List.mem_cons_of_mem a hb)) h

/-- C6 fails on the code: in the interleaving `c6_trace`, consumer 0 blocks
in `can_render` (its failed poll sets the readiness flag), consumer 1's
`can_render` consumes that flag and returns, and `stop()`'s single
`notify_all` lets consumer 0 re-poll exactly once: it finds the flag clear,
re-sets it, and blocks again.  The final state leaves consumer 0 blocked
with no pending wakeup and the loop stopped, and every continuation that
does not call `start()` again keeps consumer 0 blocked — it is never
unblocked after `stop()` returns, contradicting the claim. -/
theorem c6_stuck_consumer_after_stop :
    sysRun sysInit c6_trace = some c6_final ∧
    c6_final.c0.status = CStatus.blocked ∧
    c6_final.timer.m_running = false ∧
    (∀ acts : List Action, (∀ a ∈ acts, a ≠ Action.callStart) →
      ∀ s1, sysRun c6_final acts = some s1 → s1.c0.status = CStatus.blocked) := by
  refine ⟨by decide, by decide, by decide, ?_⟩
  intro acts ha s1 h
  have hstuck : stuck_c0 s1 :=
    sysRun_preserves_stuck acts c6_final ⟨by decide, by decide⟩ ha s1 h
  rw [hstuck.1]

theorem c6_witness :
    (∀ a ∈ [Action.callStop], a ≠ Action.callStart) ∧
    sysRun c6_final [Action.callStop] = some c6_final ∧
    c6_final.c0.status = CStatus.blocked :=
  ⟨by decide, by decide,
   c6_stuck_consumer_after_stop.2.2.2 [Action.callStop] (by decide) c6_final (by decide)⟩

/-- C7: `stop()` on a running timer clears the running flag (and runs the
notify/join branch, so it returns only after the loop thread exited);
`stop()` on a non-running timer is a no-op; after any `stop()` the running
flag is clear, and while it is clear the loop guard refuses every further
iteration — so no tick is ever produced after `stop()` returns, along any
continuation that does not call `start()`. -/
theorem c7_stop_semantics (t : RenderTimer) (s : SysState) (d : Int) :
    (t.m_running = true →
      (stop t).1 = { t with m_running := false } ∧ (stop t).2 = true) ∧
    (t.m_running = false → (stop t).1 = t ∧ (stop t).2 = false) ∧
    (stop t).1.m_running = false ∧
    (s.timer.m_running = false → sysStep s (Action.tickSignal d) = none) ∧
    (∀ acts : List Action, (∀ a ∈ acts, a ≠ Action.callStart) →
      ∀ s1, s.timer.m_running = false → sysRun s acts = some s1 →
        s1.timer.m_running = false ∧ ∀ e, sysStep s1 (Action.tickSignal e) = none) := by
  have hguard : ∀ s2 : SysState, s2.timer.m_running = false →
      ∀ e : Int, sysStep s2 (Action.tickSignal e) = none := by
    intro s2 h2 e
    simp [sysStep, h2]
  refine ⟨?_, ?_, rfl, fun h => hguard s h d, ?_⟩
  · intro h
    unfold stop
    rw [h]
    exact ⟨rfl, rfl⟩
  · intro h
    unfold stop
    rw [h]
    refine ⟨?_, rfl⟩
    obtain ⟨f, i, r, rd⟩ := t
    dsimp only at h
    rw [h]
  · intro acts ha s1 hrun h
    have h1 := sysRun_preserves_stopped acts s hrun ha s1 h
    exact ⟨h1, fun e => hguard s1 h1 e⟩

theorem c7_witness :
    ((start RenderTimer.init).1.m_running = true ∧
      (stop (start RenderTimer.init).1).1
        = { (start RenderTimer.init).1 with m_running := false } ∧
      (stop (start RenderTimer.init).1).2 = true) ∧
    (RenderTimer.init.m_running = false ∧
      (stop RenderTimer.init).1 = RenderTimer.init ∧
      (stop RenderTimer.init).2 = false) ∧
    sysStep sysInit (Action.tickSignal 5) = none ∧
    sysInit.timer.m_running = false :=
  ⟨⟨by decide, (c7_stop_semantics (start RenderTimer.init).1 sysInit 5).1 (by decide)⟩,
   ⟨by decide, (c7_stop_semantics RenderTimer.init sysInit 5).2.1 (by decide)⟩,
   (c7_stop_semantics RenderTimer.init sysInit 5).2.2.2.1 (by decide),
   ((c7_stop_semantics RenderTimer.init sysInit 5).2.2.2.2 [] (by simp) sysInit
      (by decide) (by decide)).1⟩

theorem start_count_running (n : Nat) (t : RenderTimer) (h : t.m_running = true) :
    (start_count t n).2 = 0 := by
  induction n generalizing t with
  | zero => rfl
  | succ m ih =>
    have h2 := ih (start t).1 rfl
    show (if (start t).2 then 1 else 0) + (start_count (start t).1 m).2 = 0
    rw [h2]
    simp [start, h]

/-- C8: `start()` launches a loop thread exactly when the atomic exchange on
the running flag returned `false`: from a non-running state the first call
launches and sets the flag, a call on a running state is a state no-op and
launches nothing, a second call right after any `start()` never launches,
and any sequence of `n ≥ 1` consecutive `start()` calls from a non-running
state launches exactly one loop thread. -/
theorem c8_start_once (t : RenderTimer) (n : Nat) :
    (t.m_running = false → (start t).2 = true ∧ (start t).1.m_running = true) ∧
    (t.m_running = true →
      (start t).2 = false ∧ (start t).1 = { t with m_running := true }) ∧
    (start (start t).1).2 = false ∧
    (t.m_running = false → 1 ≤ n → (start_count t n).2 = 1) := by
  refine ⟨?_, ?_, rfl, ?_⟩
  · intro h
    unfold start
    rw [h]
    exact ⟨rfl, rfl⟩
  · intro h
    unfold start
    rw [h]
    exact ⟨rfl, rfl⟩
  · intro h h1
    cases n with
    | zero => exact absurd h1 (by omega)
    | succ m =>
      have hc : (start_count (start t).1 m).2 = 0 :=
        start_count_running m (start t).1 rfl
      show (if (start t).2 then 1 else 0) + (start_count (start t).1 m).2 = 1
      rw [hc]
      simp [start, h]

theorem c8_witness :
    RenderTimer.init.m_running = false ∧
    (start RenderTimer.init).2 = true ∧
    (start (start RenderTimer.init).1).2 = false ∧
    (1 : Nat) ≤ 2 ∧
    (start_count RenderTimer.init 2).2 = 1 :=
  ⟨by decide,
   ((c8_start_once RenderTimer.init 2).1 (by decide)).1,
   (c8_start_once RenderTimer.init 2).2.2.1,
   by decide,
   (c8_start_once RenderTimer.init 2).2.2.2 (by decide) (by decide)⟩

/-- C9 fails as stated: a loop tick before `stop()` leaves the readiness
flag set (here nobody consumed it); neither `stop()` nor `start()` clears
`m_render_ready`, so after stop-then-start the stale flag survives and the
first `can_render` call returns `true` immediately, before the new loop has
produced any tick. -/
theorem c9_counterexample :
    (timer_loop_iter (start RenderTimer.init).1 16).m_render_ready = true ∧
    ((start (stop (timer_loop_iter (start RenderTimer.init).1 16)).1).1).m_render_ready
      = true ∧
    (can_render_enter
        ((start (stop (timer_loop_iter (start RenderTimer.init).1 16)).1).1)).2
      = some true := by
  decide

/-- C9 amended: after `stop()` then `start()` the running flag is set again,
so ticking resumes on the new loop; and provided the readiness flag was
clear at the restart (the last tick had been consumed and no waiter's failed
poll had re-set the flag), no stale signal makes `can_render` return
immediately — the call blocks, and the new loop's first tick releases it.
If the flag was still set from before the stop, it survives the restart and
causes one immediate return (see the counterexample). -/
theorem c9_no_stale_tick_when_flag_clear (t : RenderTimer) (d : Int)
    (h : t.m_render_ready = false) :
    ((start (stop t).1).1).m_running = true ∧
    (can_render_enter ((start (stop t).1).1)).2 = none ∧
    (can_render_enter (timer_loop_iter ((start (stop t).1).1) d)).2 = some true := by
  rw [stop_then_start]
  refine ⟨rfl, ?_, ?_⟩
  · rw [can_render_enter_of_clear { t with m_running := true } h]
  · rw [can_render_enter_of_ready _ (timer_loop_iter_ready _ d)]

theorem c9_witness :
    RenderTimer.init.m_render_ready = false ∧
    ((start (stop RenderTimer.init).1).1).m_running = true ∧
    (can_render_enter ((start (stop RenderTimer.init).1).1)).2 = none :=
  ⟨by decide,
   (c9_no_stale_tick_when_flag_clear RenderTimer.init 0 (by decide)).1,
   (c9_no_stale_tick_when_flag_clear RenderTimer.init 0 (by decide)).2.1⟩

/-- C10: the `can_render` wait predicate is `m_render_ready.test_and_set()`,
which reports the old flag value and sets the flag as a side effect.  A
consumer entering with the flag clear therefore blocks but leaves the flag
set, and a second consumer entering while the first is still blocked sees
the flag set and returns `true` immediately — with no tick ever produced by
the background loop, as the concrete run of the two-consumer system from the
freshly started timer shows. -/
theorem c10_wait_predicate_side_effect (t : RenderTimer)
    (h : t.m_render_ready = false) :
    test_and_set t = ({ t with m_render_ready := true }, t.m_render_ready) ∧
    (can_render_enter t).2 = none ∧
    (can_render_enter t).1.m_render_ready = true ∧
    (can_render_enter (can_render_enter t).1).2 = some true ∧
    sysRun sysInit [Action.callStart, Action.enter0] = some c10_mid ∧
    c10_mid.c0.status = CStatus.blocked ∧
    c10_mid.timer.m_render_ready = true ∧
    sysRun sysInit [Action.callStart, Action.enter0, Action.enter1] = some c10_end ∧
    c10_end.c1.status = CStatus.done true := by
  have hc := can_render_enter_of_clear t h
  refine ⟨rfl, ?_, ?_, ?_, by decide, by decide, by decide, by decide, by decide⟩
  · rw [hc]
  · rw [hc]
  · rw [hc]
    dsimp only
    rw [can_render_enter_of_ready _ rfl]

theorem c10_witness :
    RenderTimer.init.m_render_ready = false ∧
    (can_render_enter RenderTimer.init).2 = none ∧
    (can_render_enter (can_render_enter RenderTimer.init).1).2 = some true :=
  ⟨by decide,
   (c10_wait_predicate_side_effect RenderTimer.init (by decide)).2.1,
   (c10_wait_predicate_side_effect RenderTimer.init (by decide)).2.2.2.1⟩

end RenderTimerModel
